import Mathlib

/-!
Shallow embedding of the `drv8833` TinyGo driver (eyelight/drv8833).

Two driver variants are modelled:

* `DRV8833` — the variant in `src/unnamed/part_000`: a `PWMDevice` with two
  separate PWM peripherals (`PwmA`, `PwmB`), a shared sleep pin, and the
  operations `RunA/RunB`, `PulseA/PulseB`, `BrakeA/BrakeB`, `CoastA/CoastB`,
  `Wake`, `Sleep`, `Configure`, `NewWithSpeed`.
* `DRV8833V2` — the variant in `src/drv8833.go`: a `PWMDevice` with one PWM
  peripheral, whose `Pulse` takes no duty argument and always writes half of
  the full-scale value, and whose `Configure` discards channel-binding errors.

Go `uint32` arithmetic is modelled on `Nat` with an explicit `% 2 ^ 32` where
overflow can occur (the product `Top() * uint32(duty)`).  The side effects of
an operation (PWM channel writes, sleep-pin writes, the blocking wait) are
modelled as an explicit event list emitted in the order of the Go statements,
with Go `defer` statements placed at the end of the list in LIFO order; the
device state is obtained by folding the events over a state record.
-/

namespace DRV8833

/-- Modulus of Go `uint32` arithmetic. -/
def u32 : Nat := 2 ^ 32

/-- The clamp performed at the top of `RunA/RunB/PulseA/PulseB`
(`if duty > 100 { duty = 100 }`). -/
def clampDuty (duty : Nat) : Nat := if duty > 100 then 100 else duty

/-- The value `Top() * uint32(duty) / 100` computed in Go `uint32` arithmetic:
the product wraps modulo `2 ^ 32` before the truncating division. -/
def dutyValue (top duty : Nat) : Nat := top * duty % u32 / 100

/-- One observable side effect of a `PWMDevice` method from
`src/unnamed/part_000`:
a write to a channel of `PwmA` or of `PwmB` (`Set`), a write to the sleep pin
(`gate true` = `Wake`, pin high; `gate false` = `Sleep`, pin low), or the
blocking `time.Sleep(dur)`. -/
inductive Ev where
  | setA : Nat → Nat → Ev
  | setB : Nat → Nat → Ev
  | gate : Bool → Ev
  | wait : Nat → Ev
deriving DecidableEq, Repr

/-- State of a `PWMDevice` from `src/unnamed/part_000`: the sleep pin level
(`gate = true` is high/awake), the two PWM peripherals' `Top()` registers and
channel-value maps, and the stored channel ids `A1 A2 B1 B2`.  `Top()` is
never written by any method of this file, so it is plain data here. -/
structure DState where
  gate : Bool
  topA : Nat
  topB : Nat
  chA : Nat → Nat
  chB : Nat → Nat
  A1 : Nat
  A2 : Nat
  B1 : Nat
  B2 : Nat

/-- Effect of one event on the device state. -/
def DState.applyEv (s : DState) : Ev → DState
  | Ev.setA c v => { s with chA := fun x => if x = c then v else s.chA x }
  | Ev.setB c v => { s with chB := fun x => if x = c then v else s.chB x }
  | Ev.gate b => { s with gate := b }
  | Ev.wait _ => s

/-- Fold a list of events over the state, in order. -/
def DState.run (s : DState) (evs : List Ev) : DState :=
  evs.foldl DState.applyEv s

/-- Events of `func (d *PWMDevice) RunA(duty, ch1, ch2 uint8, slowDecay bool)`:
clamp the duty, write `Top()*uint32(duty)/100` to `ch1`, write `Top()` (slow
decay) or `0` (fast decay) to `ch2`, then wake the chip if the sleep pin reads
low. -/
def RunA_evs (s : DState) (duty ch1 ch2 : Nat) (slow : Bool) : List Ev :=
  [Ev.setA ch1 (dutyValue s.topA (clampDuty duty))]
    ++ (if slow then [Ev.setA ch2 s.topA] else [Ev.setA ch2 0])
    ++ (if s.gate = false then [Ev.gate true] else [])

/-- State after `RunA`. -/
def RunA (s : DState) (duty ch1 ch2 : Nat) (slow : Bool) : DState :=
  s.run (RunA_evs s duty ch1 ch2 slow)

/-- Events of `func (d *PWMDevice) RunB(duty, ch1, ch2 uint8, slowDecay bool)`:
identical to `RunA` but through `PwmB`. -/
def RunB_evs (s : DState) (duty ch1 ch2 : Nat) (slow : Bool) : List Ev :=
  [Ev.setB ch1 (dutyValue s.topB (clampDuty duty))]
    ++ (if slow then [Ev.setB ch2 s.topB] else [Ev.setB ch2 0])
    ++ (if s.gate = false then [Ev.gate true] else [])

/-- State after `RunB`. -/
def RunB (s : DState) (duty ch1 ch2 : Nat) (slow : Bool) : DState :=
  s.run (RunB_evs s duty ch1 ch2 slow)

/-- The deferred writes of `PulseA`, in execution (LIFO) order: the slow-decay
branch registers `defer Set(ch1, 0)` then `defer Set(ch2, 0)`, so at return
`ch2` is zeroed first and then `ch1`; the fast-decay branch registers only
`defer Set(ch1, 0)`. -/
def PulseA_defers (ch1 ch2 : Nat) (slow : Bool) : List Ev :=
  if slow then [Ev.setA ch2 0, Ev.setA ch1 0] else [Ev.setA ch1 0]

/-- Events of
`func (d *PWMDevice) PulseA(duty, ch1, ch2 uint8, dur time.Duration, slowDecay bool)`:
clamp the duty; in the slow-decay branch write `Top()` to `ch1` and
`Top()*uint32(duty)/100` to `ch2`, in the fast-decay branch write
`Top()*uint32(duty)/100` to `ch1` and `0` to `ch2`; then `Wake`,
`time.Sleep(dur)`, `Sleep`, and finally the deferred writes. -/
def PulseA_evs (s : DState) (duty ch1 ch2 dur : Nat) (slow : Bool) : List Ev :=
  (if slow then
    [Ev.setA ch1 s.topA, Ev.setA ch2 (dutyValue s.topA (clampDuty duty))]
  else
    [Ev.setA ch1 (dutyValue s.topA (clampDuty duty)), Ev.setA ch2 0])
    ++ [Ev.gate true, Ev.wait dur, Ev.gate false]
    ++ PulseA_defers ch1 ch2 slow

/-- State after `PulseA` returns (deferred writes included). -/
def PulseA (s : DState) (duty ch1 ch2 dur : Nat) (slow : Bool) : DState :=
  s.run (PulseA_evs s duty ch1 ch2 dur slow)

/-- The deferred writes of `PulseB`, in execution (LIFO) order. -/
def PulseB_defers (ch1 ch2 : Nat) (slow : Bool) : List Ev :=
  if slow then [Ev.setB ch2 0, Ev.setB ch1 0] else [Ev.setB ch1 0]

/-- Events of
`func (d *PWMDevice) PulseB(duty, ch1, ch2 uint8, dur time.Duration, slowDecay bool)`:
identical to `PulseA` but through `PwmB`. -/
def PulseB_evs (s : DState) (duty ch1 ch2 dur : Nat) (slow : Bool) : List Ev :=
  (if slow then
    [Ev.setB ch1 s.topB, Ev.setB ch2 (dutyValue s.topB (clampDuty duty))]
  else
    [Ev.setB ch1 (dutyValue s.topB (clampDuty duty)), Ev.setB ch2 0])
    ++ [Ev.gate true, Ev.wait dur, Ev.gate false]
    ++ PulseB_defers ch1 ch2 slow

/-- State after `PulseB` returns (deferred writes included). -/
def PulseB (s : DState) (duty ch1 ch2 dur : Nat) (slow : Bool) : DState :=
  s.run (PulseB_evs s duty ch1 ch2 dur slow)

/-- `func (d *PWMDevice) Wake()`: pulls the sleep pin high. -/
def Wake (s : DState) : DState := { s with gate := true }

/-- `func (d *PWMDevice) Sleep()`: pulls the sleep pin low. -/
def Sleep (s : DState) : DState := { s with gate := false }

/-- `func (d *PWMDevice) BrakeA()`: writes `Top()` to both stored A channels. -/
def BrakeA (s : DState) : DState :=
  s.run [Ev.setA s.A1 s.topA, Ev.setA s.A2 s.topA]

/-- `func (d *PWMDevice) BrakeB()`: writes `Top()` to both stored B channels. -/
def BrakeB (s : DState) : DState :=
  s.run [Ev.setB s.B1 s.topB, Ev.setB s.B2 s.topB]

/-- `func (d *PWMDevice) CoastA()`: writes `0` to both stored A channels. -/
def CoastA (s : DState) : DState :=
  s.run [Ev.setA s.A1 0, Ev.setA s.A2 0]

/-- `func (d *PWMDevice) CoastB()`: writes `0` to both stored B channels. -/
def CoastB (s : DState) : DState :=
  s.run [Ev.setB s.B1 0, Ev.setB s.B2 0]

/-- A concrete device state used for concrete evaluations: asleep, both
full-scale registers at `1000`, all channel values `0`, stored channel ids
`A1 = 0`, `A2 = 1`, `B1 = 0`, `B2 = 1`. -/
def s0 : DState :=
  { gate := false, topA := 1000, topB := 1000
    chA := fun _ => 0, chB := fun _ => 0
    A1 := 0, A2 := 1, B1 := 0, B2 := 1 }

/-- A concrete device state whose A full-scale register is the largest
`uint32` value, `2 ^ 32 - 1 = 4294967295`. -/
def s1 : DState :=
  { gate := false, topA := 4294967295, topB := 1000
    chA := fun _ => 0, chB := fun _ => 0
    A1 := 0, A2 := 1, B1 := 0, B2 := 1 }

/-- The five physical pins bound by a `PWMDevice`. -/
inductive Pin where
  | sleepPin | a1pin | a2pin | b1pin | b2pin
deriving DecidableEq, Repr

/-- A log entry produced by a `println` guarded by `if err != nil`:
empty when the capability reported no error, otherwise the prefixed message. -/
def logOf (pre : String) : Option String → List String
  | none => []
  | some e => [pre ++ e]

/-- Observable outcome of `func (d *PWMDevice) Configure()` from
`src/unnamed/part_000`: the pins configured (in order), the
`Channel` calls issued (in order; `true` tags `PwmA`, `false` tags `PwmB`),
the log lines printed, whether the sleep pin was pulled low, and the channel
ids stored into `A1 A2 B1 B2`. -/
structure CfgTrace where
  pinSetups : List Pin
  chanCalls : List (Bool × Pin)
  logs : List String
  gateLow : Bool
  A1 : Nat
  A2 : Nat
  B1 : Nat
  B2 : Nat

/-- `func (d *PWMDevice) Configure()` from `src/unnamed/part_000`, with the
two PWM capabilities' `Channel` methods abstracted as functions from a pin to
the returned channel id paired with an optional error.  The Go code configures
the sleep pin, calls `d.Sleep()`, then for each of the four PWM pins in order
configures the pin, calls `Channel`, prints the error if there is one, and
stores the returned id unconditionally; no error aborts or repeats anything. -/
def Configure (chanA chanB : Pin → Nat × Option String) : CfgTrace :=
  let r1 := chanA Pin.a1pin
  let r2 := chanA Pin.a2pin
  let r3 := chanB Pin.b1pin
  let r4 := chanB Pin.b2pin
  { pinSetups := [Pin.sleepPin, Pin.a1pin, Pin.a2pin, Pin.b1pin, Pin.b2pin]
    chanCalls :=
      [(true, Pin.a1pin), (true, Pin.a2pin), (false, Pin.b1pin), (false, Pin.b2pin)]
    logs := logOf "error obtaining DRV8833 a1 channel: " r1.2
      ++ logOf "error obtaining DRV8833 a2 channel: " r2.2
      ++ logOf "error obtaining DRV8833 b1 channel: " r3.2
      ++ logOf "error obtaining DRV8833 b2 channel: " r4.2
    gateLow := true
    A1 := r1.1, A2 := r2.1, B1 := r3.1, B2 := r4.1 }

/-- Outcome of `NewWithSpeed` from `src/unnamed/part_000`: the log lines and
the channel ids of the returned `PWMDevice`. -/
structure NewResult where
  logs : List String
  A1 : Nat
  A2 : Nat
  B1 : Nat
  B2 : Nat

/-- `func NewWithSpeed(...)` from `src/unnamed/part_000`, with the two
`pwm.Configure(cfg)` calls abstracted as their optional errors.  Each error is
printed and execution continues; the returned device always has all four
channel ids set to `0`. -/
def NewWithSpeed (confAErr confBErr : Option String) : NewResult :=
  { logs := logOf "error Configuring DRV8833 pwmA: " confAErr
      ++ logOf "error Configuring DRV8833 pwmB: " confBErr
    A1 := 0, A2 := 0, B1 := 0, B2 := 0 }

end DRV8833

namespace DRV8833V2

/-- One observable side effect of a `PWMDevice` method from `src/drv8833.go`
(single PWM peripheral): a channel write, a sleep-pin write, or the blocking
`time.Sleep(duration)`. -/
inductive PEv where
  | set : Nat → Nat → PEv
  | gate : Bool → PEv
  | wait : Nat → PEv
deriving DecidableEq, Repr

/-- State of a `PWMDevice` from `src/drv8833.go`: sleep-pin level, the single
peripheral's `Top()` register (which `SetPeriod` may change), and its
channel-value map. -/
structure St where
  gate : Bool
  top : Nat
  ch : Nat → Nat

/-- Effect of one event on the state. -/
def St.applyEv (s : St) : PEv → St
  | PEv.set c v => { s with ch := fun x => if x = c then v else s.ch x }
  | PEv.gate b => { s with gate := b }
  | PEv.wait _ => s

/-- Fold a list of events over the state, in order. -/
def St.run (s : St) (evs : List PEv) : St :=
  evs.foldl St.applyEv s

/-- Events of
`func (d *PWMDevice) Pulse(ch1, ch2 uint8, period, duration time.Duration, slowDecay bool)`
from `src/drv8833.go`, after the `SetPeriod` call: `newTop` is the value
`d.pwm.Top()` reports once the period is set.  The body writes `Top()/2` to
`ch1` (the comment in the source calls it "half duty cycle"), then `Top()`
(slow decay) or `0` (fast decay) to `ch2`, then `Wake`, `time.Sleep(duration)`,
`Sleep`.  This variant has no deferred writes. -/
def Pulse_evs (newTop ch1 ch2 dur : Nat) (slow : Bool) : List PEv :=
  [PEv.set ch1 (newTop / 2),
    PEv.set ch2 (if slow then newTop else 0),
    PEv.gate true, PEv.wait dur, PEv.gate false]

/-- `Pulse` from `src/drv8833.go`: the `SetPeriod` call is abstracted by the
resulting `Top()` value `newTop` and the optional error `perr` (printed when
present); the final state and the log lines are returned. -/
def Pulse (s : St) (ch1 ch2 newTop : Nat) (perr : Option String)
    (dur : Nat) (slow : Bool) : St × List String :=
  (St.run { s with top := newTop } (Pulse_evs newTop ch1 ch2 dur slow),
    DRV8833.logOf "Pulse() error: " perr)

/-- `func (d *PWMDevice) Wake()` from `src/drv8833.go`. -/
def Wake (s : St) : St := { s with gate := true }

/-- `func (d *PWMDevice) Sleep()` from `src/drv8833.go`. -/
def Sleep (s : St) : St := { s with gate := false }

/-- Observable outcome of `func (d *PWMDevice) Configure()` from
`src/drv8833.go`: pins configured, `Channel` calls issued on the single
peripheral, log lines, sleep-pin pulled low, stored channel ids. -/
structure CfgTrace where
  pinSetups : List DRV8833.Pin
  chanCalls : List DRV8833.Pin
  logs : List String
  gateLow : Bool
  a1ch : Nat
  a2ch : Nat
  b1ch : Nat
  b2ch : Nat

/-- `func (d *PWMDevice) Configure()` from `src/drv8833.go`: configures the
sleep pin, calls `d.Sleep()`, then for each PWM pin configures it and calls
`d.pwm.Channel`, discarding the error with `_` — nothing is ever logged — and
stores the returned id unconditionally. -/
def Configure (chanF : DRV8833.Pin → Nat × Option String) : CfgTrace :=
  let r1 := chanF DRV8833.Pin.a1pin
  let r2 := chanF DRV8833.Pin.a2pin
  let r3 := chanF DRV8833.Pin.b1pin
  let r4 := chanF DRV8833.Pin.b2pin
  { pinSetups := [DRV8833.Pin.sleepPin, DRV8833.Pin.a1pin, DRV8833.Pin.a2pin,
      DRV8833.Pin.b1pin, DRV8833.Pin.b2pin]
    chanCalls := [DRV8833.Pin.a1pin, DRV8833.Pin.a2pin,
      DRV8833.Pin.b1pin, DRV8833.Pin.b2pin]
    logs := []
    gateLow := true
    a1ch := r1.1, a2ch := r2.1, b1ch := r3.1, b2ch := r4.1 }

/-- A concrete state for `src/drv8833.go` evaluations: asleep, `Top() = 1000`,
all channel values `0`. -/
def t0 : St := { gate := false, top := 1000, ch := fun _ => 0 }

end DRV8833V2

open DRV8833

/-- C1 counterexample: the claim says every pulse setup step writes the
duty-modulated value to `ch1` and the full-scale `Top` to `ch2` when
decayMode=slow.  At the concrete state `s0` (`Top = 1000`), `PulseA` with
`duty = 60`, `ch1 = 0`, `ch2 = 1`, slow decay emits the setup writes
`ch1 ← 1000` and `ch2 ← 600`: the duty value goes to `ch2` and `Top` to
`ch1`, so the second setup write is not `ch2 ← Top` as claimed. -/
theorem C1_counterexample :
    (PulseA_evs s0 60 0 1 5 true).take 2 = [Ev.setA 0 1000, Ev.setA 1 600]
    ∧ (PulseA_evs s0 60 0 1 5 true).take 2
      ≠ [Ev.setA 0 (dutyValue s0.topA 60), Ev.setA 1 s0.topA] := by
  decide

/-- C1 (amended): for every run setup step, and for pulse setup with
decayMode=fast, the duty-modulated value is written to the polarity
sub-channel `ch1` and the other sub-channel `ch2` receives `Top` (slow) or
`0` (fast); but for pulse setup with decayMode=slow the roles are swapped:
`ch1` receives `Top` and `ch2` receives the duty-modulated value. -/
theorem C1_setup_writes (s : DState) (duty ch1 ch2 dur : Nat) (slow : Bool) :
    (RunA_evs s duty ch1 ch2 slow).take 2
      = [Ev.setA ch1 (dutyValue s.topA (clampDuty duty)),
        Ev.setA ch2 (if slow then s.topA else 0)]
    ∧ (RunB_evs s duty ch1 ch2 slow).take 2
      = [Ev.setB ch1 (dutyValue s.topB (clampDuty duty)),
        Ev.setB ch2 (if slow then s.topB else 0)]
    ∧ (PulseA_evs s duty ch1 ch2 dur slow).take 2
      = (if slow then
          [Ev.setA ch1 s.topA, Ev.setA ch2 (dutyValue s.topA (clampDuty duty))]
        else
          [Ev.setA ch1 (dutyValue s.topA (clampDuty duty)), Ev.setA ch2 0])
    ∧ (PulseB_evs s duty ch1 ch2 dur slow).take 2
      = (if slow then
          [Ev.setB ch1 s.topB, Ev.setB ch2 (dutyValue s.topB (clampDuty duty))]
        else
          [Ev.setB ch1 (dutyValue s.topB (clampDuty duty)), Ev.setB ch2 0]) := by
  cases slow <;>
    simp [RunA_evs, RunB_evs, PulseA_evs, PulseB_evs, PulseA_defers,
      PulseB_defers]

/-- C2 counterexample: the claim says a slow-decay `Pulse` leaves the polarity
sub-channel at its last driven duty value.  At `s0` (`Top = 1000`), after
`PulseA` with `duty = 60`, `ch1 = 0`, `ch2 = 1`, slow decay, channel `0`
holds `0`, not the duty value `600`: the deferred writes zero both
sub-channel registers before the call returns. -/
theorem C2_counterexample :
    (PulseA s0 60 0 1 5 true).chA 0 = 0
    ∧ (PulseA s0 60 0 1 5 true).chA 0 ≠ dutyValue s0.topA 60 := by
  constructor
  · rfl
  · decide

/-- C2 (amended): after a `PulseA`/`PulseB` call completes, both sub-channels
`ch1` and `ch2` are left at `0` in both decay modes: the fast-decay branch
defers a zero write to `ch1` (having written `0` to `ch2` in the body), and
the slow-decay branch defers zero writes to both `ch2` and `ch1`; there is no
register retention, the sleep gate is not the only de-energizing mechanism. -/
theorem C2_pulse_resets (s : DState) (duty ch1 ch2 dur : Nat) (slow : Bool) :
    (PulseA s duty ch1 ch2 dur slow).chA ch1 = 0
    ∧ (PulseA s duty ch1 ch2 dur slow).chA ch2 = 0
    ∧ (PulseB s duty ch1 ch2 dur slow).chB ch1 = 0
    ∧ (PulseB s duty ch1 ch2 dur slow).chB ch2 = 0 := by
  cases slow <;> by_cases h : ch2 = ch1 <;>
    simp [PulseA, PulseB, PulseA_evs, PulseB_evs, PulseA_defers, PulseB_defers,
      DState.run, DState.applyEv, h]

/-- C3 counterexample: the claim says the duty value written by a run
operation equals `floor(Top * duty / 100)` for every full-scale value `Top`.
At `s1`, whose `Top` is the largest `uint32` value `4294967295`, `RunA` with
`duty = 100` writes `42949671` — the product `Top * 100` wraps modulo
`2 ^ 32` in Go `uint32` arithmetic — while `floor(Top * 100 / 100)` is
`4294967295`. -/
theorem C3_counterexample :
    (RunA_evs s1 100 0 1 false).take 1 = [Ev.setA 0 42949671]
    ∧ (RunA_evs s1 100 0 1 false).take 1
      ≠ [Ev.setA 0 (s1.topA * 100 / 100)] := by
  decide

/-- C3 (amended): for every duty in `[0, 100]`, the duty value written first
by `RunA`/`RunB` equals `floor((Top * duty) mod 2 ^ 32 / 100)` — truncating
division on the 32-bit wrapped product, with no rounding adjustment — and
this coincides with `floor(Top * duty / 100)` whenever `Top * duty < 2 ^ 32`
(in particular whenever `Top ≤ 42949672`). -/
theorem C3_duty_quantization (s : DState) (duty ch1 ch2 : Nat) (slow : Bool)
    (h : duty ≤ 100) :
    (RunA_evs s duty ch1 ch2 slow).take 1
      = [Ev.setA ch1 (s.topA * duty % u32 / 100)]
    ∧ (RunB_evs s duty ch1 ch2 slow).take 1
      = [Ev.setB ch1 (s.topB * duty % u32 / 100)]
    ∧ (s.topA * duty < u32 → s.topA * duty % u32 / 100 = s.topA * duty / 100) := by
  have hc : clampDuty duty = duty := by
    unfold clampDuty
    rw [if_neg (by omega)]
  refine ⟨?_, ?_, fun hlt => by rw [Nat.mod_eq_of_lt hlt]⟩ <;>
    simp [RunA_evs, RunB_evs, dutyValue, hc]

/-- C3 witness: at `s0` (`Top = 1000`) and `duty = 60`, the first write of
`RunA` carries `600 = 1000 * 60 / 100`. -/
theorem C3_duty_quantization_witness :
    (RunA_evs s0 60 0 1 false).take 1 = [Ev.setA 0 600] := by
  exact (C3_duty_quantization s0 60 0 1 false (by decide)).1.trans (by decide)

/-- C4: for every duty greater than 100, `RunA`, `RunB`, `PulseA` and
`PulseB` emit exactly the events they emit for duty 100 (and hence produce
the same state): out-of-range duty is silently clamped; the operations
return no error value at all, so an out-of-range duty is never reported as
an error. -/
theorem C4_duty_clamped (s : DState) (duty ch1 ch2 dur : Nat) (slow : Bool)
    (h : 100 < duty) :
    RunA_evs s duty ch1 ch2 slow = RunA_evs s 100 ch1 ch2 slow
    ∧ RunB_evs s duty ch1 ch2 slow = RunB_evs s 100 ch1 ch2 slow
    ∧ PulseA_evs s duty ch1 ch2 dur slow = PulseA_evs s 100 ch1 ch2 dur slow
    ∧ PulseB_evs s duty ch1 ch2 dur slow = PulseB_evs s 100 ch1 ch2 dur slow
    ∧ RunA s duty ch1 ch2 slow = RunA s 100 ch1 ch2 slow
    ∧ RunB s duty ch1 ch2 slow = RunB s 100 ch1 ch2 slow
    ∧ PulseA s duty ch1 ch2 dur slow = PulseA s 100 ch1 ch2 dur slow
    ∧ PulseB s duty ch1 ch2 dur slow = PulseB s 100 ch1 ch2 dur slow := by
  have hc : clampDuty duty = clampDuty 100 := by
    unfold clampDuty
    rw [if_pos h, if_neg (lt_irrefl 100)]
  simp [RunA, RunB, PulseA, PulseB, RunA_evs, RunB_evs, PulseA_evs,
    PulseB_evs, hc]

/-- C4 witness: at `s0`, duty `150` produces the same events as duty `100`
for both `RunA` and `PulseA`. -/
theorem C4_duty_clamped_witness :
    RunA_evs s0 150 0 1 true = RunA_evs s0 100 0 1 true
    ∧ PulseA_evs s0 150 0 1 5 true = PulseA_evs s0 100 0 1 5 true := by
  exact ⟨(C4_duty_clamped s0 150 0 1 5 true (by decide)).1,
    (C4_duty_clamped s0 150 0 1 5 true (by decide)).2.2.1⟩

/-- C5: a `PulseA`/`PulseB` call emits exactly the two sub-channel setup
writes, then `Wake` (gate high), then the blocking wait of the requested
duration, then unconditionally `Sleep` (gate low), followed only by deferred
sub-channel writes that never touch the gate; the gate is awake immediately
after the setup phase and asleep when the call returns. -/
theorem C5_pulse_gate (s : DState) (duty ch1 ch2 dur : Nat) (slow : Bool) :
    (∃ v1 v2,
      PulseA_evs s duty ch1 ch2 dur slow
        = [Ev.setA ch1 v1, Ev.setA ch2 v2, Ev.gate true, Ev.wait dur,
            Ev.gate false] ++ PulseA_defers ch1 ch2 slow
      ∧ (s.run [Ev.setA ch1 v1, Ev.setA ch2 v2, Ev.gate true]).gate = true
      ∧ ∀ e ∈ PulseA_defers ch1 ch2 slow, ∃ c v, e = Ev.setA c v)
    ∧ (PulseA s duty ch1 ch2 dur slow).gate = false
    ∧ (∃ w1 w2,
      PulseB_evs s duty ch1 ch2 dur slow
        = [Ev.setB ch1 w1, Ev.setB ch2 w2, Ev.gate true, Ev.wait dur,
            Ev.gate false] ++ PulseB_defers ch1 ch2 slow
      ∧ (s.run [Ev.setB ch1 w1, Ev.setB ch2 w2, Ev.gate true]).gate = true
      ∧ ∀ e ∈ PulseB_defers ch1 ch2 slow, ∃ c v, e = Ev.setB c v)
    ∧ (PulseB s duty ch1 ch2 dur slow).gate = false := by
  cases slow <;>
    refine ⟨⟨_, _, rfl, by simp [DState.run, DState.applyEv], ?_⟩,
      by simp [PulseA, PulseA_evs, PulseA_defers, DState.run, DState.applyEv],
      ⟨_, _, rfl, by simp [DState.run, DState.applyEv], ?_⟩,
      by simp [PulseB, PulseB_evs, PulseB_defers, DState.run,
        DState.applyEv]⟩ <;>
  · intro e he
    simp [PulseA_defers, PulseB_defers] at he
    first
    | (rcases he with h | h <;> exact ⟨_, _, h⟩)
    | exact ⟨_, _, he⟩

/-- C6: after every `RunA`/`RunB` call the sleep gate is awake — when the
sleep pin reads low the run wakes it as a side effect, and when it already
reads high no gate event is emitted and it stays high. -/
theorem C6_run_wakes (s : DState) (duty ch1 ch2 : Nat) (slow : Bool) :
    (RunA s duty ch1 ch2 slow).gate = true
    ∧ (RunB s duty ch1 ch2 slow).gate = true := by
  cases hg : s.gate <;> cases slow <;>
    simp [RunA, RunB, RunA_evs, RunB_evs, DState.run, DState.applyEv, hg]

/-- C7: `Wake` and `Sleep` are idempotent in both driver variants — calling
either twice in a row produces exactly the state produced by calling it
once, so in particular the observable gate state is the same. -/
theorem C7_wake_sleep_idempotent (s : DState) (t : DRV8833V2.St) :
    Wake (Wake s) = Wake s
    ∧ Sleep (Sleep s) = Sleep s
    ∧ DRV8833V2.Wake (DRV8833V2.Wake t) = DRV8833V2.Wake t
    ∧ DRV8833V2.Sleep (DRV8833V2.Sleep t) = DRV8833V2.Sleep t :=
  ⟨rfl, rfl, rfl, rfl⟩

/-- C8 counterexample: the claim says a rejected channel binding is logged in
every variant. In the `src/drv8833.go` variant, a capability that rejects
every binding (`err = "channel failure"` for each pin) produces an empty log
— the error is discarded with `_`, not logged — even though all four bindings
are still attempted and the returned (zero) values are stored. -/
theorem C8_counterexample :
    (DRV8833V2.Configure (fun _ => (0, some "channel failure"))).logs = []
    ∧ (DRV8833V2.Configure (fun _ => (0, some "channel failure"))).chanCalls
      = [Pin.a1pin, Pin.a2pin, Pin.b1pin, Pin.b2pin]
    ∧ (DRV8833V2.Configure (fun _ => (0, some "channel failure"))).a1ch = 0 :=
  ⟨rfl, rfl, rfl⟩

/-- C8 (amended): a rejected configuration or binding is never retried and
never aborts: in both variants every pin is still configured and every
remaining channel binding is still attempted exactly once, in order, and
the failed binding's field receives whatever (zero/undefined) channel value
the capability returned.  In the `src/unnamed/part_000` variant the error is
also logged (`Configure` logs each failed binding, `NewWithSpeed` logs each
failed peripheral configuration and still builds the device with all channel
ids zero); in the `src/drv8833.go` variant the error is silently discarded
and nothing is logged. -/
theorem C8_failsoft (chanA chanB chanF : Pin → Nat × Option String)
    (confAErr confBErr : Option String) :
    (Configure chanA chanB).pinSetups
      = [Pin.sleepPin, Pin.a1pin, Pin.a2pin, Pin.b1pin, Pin.b2pin]
    ∧ (Configure chanA chanB).chanCalls
      = [(true, Pin.a1pin), (true, Pin.a2pin), (false, Pin.b1pin),
        (false, Pin.b2pin)]
    ∧ (Configure chanA chanB).logs
      = logOf "error obtaining DRV8833 a1 channel: " (chanA Pin.a1pin).2
        ++ logOf "error obtaining DRV8833 a2 channel: " (chanA Pin.a2pin).2
        ++ logOf "error obtaining DRV8833 b1 channel: " (chanB Pin.b1pin).2
        ++ logOf "error obtaining DRV8833 b2 channel: " (chanB Pin.b2pin).2
    ∧ (Configure chanA chanB).A1 = (chanA Pin.a1pin).1
    ∧ (Configure chanA chanB).A2 = (chanA Pin.a2pin).1
    ∧ (Configure chanA chanB).B1 = (chanB Pin.b1pin).1
    ∧ (Configure chanA chanB).B2 = (chanB Pin.b2pin).1
    ∧ (Configure chanA chanB).gateLow = true
    ∧ (NewWithSpeed confAErr confBErr).logs
      = logOf "error Configuring DRV8833 pwmA: " confAErr
        ++ logOf "error Configuring DRV8833 pwmB: " confBErr
    ∧ (NewWithSpeed confAErr confBErr).A1 = 0
    ∧ (NewWithSpeed confAErr confBErr).B2 = 0
    ∧ (DRV8833V2.Configure chanF).pinSetups
      = [Pin.sleepPin, Pin.a1pin, Pin.a2pin, Pin.b1pin, Pin.b2pin]
    ∧ (DRV8833V2.Configure chanF).chanCalls
      = [Pin.a1pin, Pin.a2pin, Pin.b1pin, Pin.b2pin]
    ∧ (DRV8833V2.Configure chanF).logs = []
    ∧ (DRV8833V2.Configure chanF).a1ch = (chanF Pin.a1pin).1
    ∧ (DRV8833V2.Configure chanF).b2ch = (chanF Pin.b2pin).1
    ∧ (DRV8833V2.Configure chanF).gateLow = true := by
  refine ⟨rfl, rfl, rfl, rfl, rfl, rfl, rfl, rfl, rfl, rfl, rfl, rfl, rfl,
    rfl, rfl, rfl, rfl⟩

/-- C9: in the `src/drv8833.go` variant, whose `Pulse` takes no duty
argument, the first write of every `Pulse` call puts exactly `Top() / 2`
(half duty cycle, truncating division) on the polarity sub-channel `ch1`,
whatever the period, the duration, the decay mode or the `SetPeriod` error;
when `ch1` and `ch2` are distinct channels, `ch1` still holds `Top() / 2`
in the final state. -/
theorem C9_half_duty (t : DRV8833V2.St) (ch1 ch2 newTop : Nat)
    (perr : Option String) (dur : Nat) (slow : Bool) :
    (DRV8833V2.Pulse_evs newTop ch1 ch2 dur slow).take 1
      = [DRV8833V2.PEv.set ch1 (newTop / 2)]
    ∧ (ch1 ≠ ch2 →
      (DRV8833V2.Pulse t ch1 ch2 newTop perr dur slow).1.ch ch1 = newTop / 2) := by
  refine ⟨rfl, fun h => ?_⟩
  simp [DRV8833V2.Pulse, DRV8833V2.Pulse_evs, DRV8833V2.St.run,
    DRV8833V2.St.applyEv, h]

/-- C9 witness: at `t0` with `Top() = 1000` after `SetPeriod`, channels
`ch1 = 0`, `ch2 = 1`, fast decay, the final value of channel `0` is `500`. -/
theorem C9_half_duty_witness :
    (DRV8833V2.Pulse DRV8833V2.t0 0 1 1000 none 5 false).1.ch 0 = 500 := by
  exact ((C9_half_duty DRV8833V2.t0 0 1 1000 none 5 false).2
    (by decide)).trans (by decide)

/-- C10: channel independence — `RunA`, `PulseA`, `BrakeA` and `CoastA`
write only through `PwmA` and the shared sleep gate, leaving every B-channel
sub-channel value (and the B full-scale register) unchanged, and
symmetrically the B operations leave every A-channel sub-channel value
unchanged. -/
theorem C10_channel_independence (s : DState) (duty ch1 ch2 dur : Nat)
    (slow : Bool) :
    (RunA s duty ch1 ch2 slow).chB = s.chB
    ∧ (PulseA s duty ch1 ch2 dur slow).chB = s.chB
    ∧ (BrakeA s).chB = s.chB
    ∧ (CoastA s).chB = s.chB
    ∧ (RunA s duty ch1 ch2 slow).topB = s.topB
    ∧ (PulseA s duty ch1 ch2 dur slow).topB = s.topB
    ∧ (RunB s duty ch1 ch2 slow).chA = s.chA
    ∧ (PulseB s duty ch1 ch2 dur slow).chA = s.chA
    ∧ (BrakeB s).chA = s.chA
    ∧ (CoastB s).chA = s.chA
    ∧ (RunB s duty ch1 ch2 slow).topA = s.topA
    ∧ (PulseB s duty ch1 ch2 dur slow).topA = s.topA := by
  cases hg : s.gate <;> cases slow <;>
    simp [RunA, RunB, PulseA, PulseB, BrakeA, BrakeB, CoastA, CoastB,
      RunA_evs, RunB_evs, PulseA_evs, PulseB_evs, PulseA_defers,
      PulseB_defers, DState.run, DState.applyEv, hg]
